import Mathlib

/-!
# Verification of the Livesport H2H qualification engine

A shallow embedding of the decision logic of `livesport_h2h_scraper.py`:
the team-sport H2H qualifier (`process_match`), the form-advantage
analyzers (`_analyze_form_advantage`, `_analyze_away_form_advantage`),
the synthetic surface-profile generator
(`calculate_surface_stats_from_h2h`), the tennis favorite/fallback logic
(`process_match_tennis`), and the over/under gating with its default
lines.  Python floats are modelled by `ℚ` (all arithmetic in these
routines is exact decimal arithmetic on small fractions), Python strings
by `String` processed as `List Char`, `None`-able values by `Option`.
External collaborators (the V3 tennis analyzer, the over/under analyzer,
the odds API) are modelled as abstract inputs, exactly as the source
consumes their results.
-/

namespace Livesport

/-! ## Python string primitives

`str.lower`, `str.strip` and the substring test `in`, as used by the
name-matching heuristics.  Operating on `List Char` keeps every
definition kernel-computable.  ASCII lowering matches Python `.lower()`
on the ASCII range. -/

/-- ASCII lower-casing of one character (Python `str.lower` per char). -/
def lowerChar (c : Char) : Char :=
  if 65 ≤ c.toNat && c.toNat ≤ 90 then Char.ofNat (c.toNat + 32) else c

/-- Characters removed by Python `str.strip()`. -/
def isPySpace (c : Char) : Bool :=
  c == ' ' || c == '\t' || c == '\n' || c == '\r' || c == '\x0b' || c == '\x0c'

/-- Python `s.strip()`: drop leading and trailing whitespace. -/
def stripL (l : List Char) : List Char :=
  ((l.dropWhile isPySpace).reverse.dropWhile isPySpace).reverse

/-- Python `s.lower()` (ASCII). -/
def toLowerL (l : List Char) : List Char := l.map lowerChar

/-- Does `l` start with `p`? (helper for the substring test). -/
def leadsWith : List Char → List Char → Bool
  | [], _ => true
  | _ :: _, [] => false
  | p :: ps, c :: cs => p == c && leadsWith ps cs

/-- Python `pat in hay` on strings: `pat` occurs contiguously in `hay`.
The empty pattern is contained in every string, as in Python. -/
def containsSub (hay pat : List Char) : Bool :=
  match hay with
  | [] => pat.isEmpty
  | _ :: rest => leadsWith pat hay || containsSub rest pat

/-- `s.lower().strip()`, the normalization applied before name
comparison throughout the source. -/
def pyNorm (l : List Char) : List Char := stripL (toLowerL l)

/-! ## Data model

One parsed H2H row, as produced by `parse_h2h_from_soup` (format
`{'date', 'home', 'away', 'score', 'winner'}`, at most 5 rows kept).
The `score` field holds the two captured integers of the regex
`(\d+)\s*[:\-]\s*(\d+)` applied to the raw score string, or `none` when
the regex does not match (the loops then `continue`, skipping the row).
`winner` is the upstream `'home'`/`'away'`/`'draw'` marker, consumed by
`calculate_surface_stats_from_h2h`. -/
structure H2HItem where
  home : String
  away : String
  score : Option (Nat × Nat)
  winner : String
  deriving Repr, DecidableEq

/-- The winning side's (stripped) name of one historical match, per the
counting loops of `process_match` / `process_match_tennis`:
home name if the first captured number is larger, away name if the
second is larger, `none` on a draw or an unparsable score — in both of
the latter cases no win is credited. -/
def winnerName (it : H2HItem) : Option (List Char) :=
  match it.score with
  | none => none
  | some (gh, ga) =>
    if gh > ga then some (stripL it.home.data)
    else if ga > gh then some (stripL it.away.data)
    else none

/-! ## Team-sport H2H qualifier (`process_match`, lines 479–553) -/

/-- The name test of `process_match`: normalized equality, or either
normalized name a substring of the other. -/
def sideMatches (winner cur : List Char) : Bool :=
  let w := pyNorm winner
  let c := pyNorm cur
  w == c || containsSub c w || containsSub w c

/-- Contribution of one historical row to `cnt_home` (resp. `cnt_away`)
for the current side named `cur`: 1 when the row has a decided,
parsable winner whose stripped name is nonempty (`if winner_team`),
the current name is truthy (`and current_home`), and the names match. -/
def credit (cur : String) (it : H2HItem) : Nat :=
  match winnerName it with
  | none => 0
  | some w =>
    if !w.isEmpty && !cur.data.isEmpty && sideMatches w cur.data then 1 else 0

/-- `cnt_home` / `cnt_away`: total wins credited to the current side
named `cur` over the H2H list. -/
def cntWins (cur : String) (h2h : List H2HItem) : Nat :=
  (h2h.map (credit cur)).sum

/-- The fields of the team-sport verdict relevant to qualification,
as written into `out` by `process_match`. -/
structure TeamVerdict where
  qualifies : Bool
  win_rate : ℚ
  home_wins : Nat
  away_wins : Nat
  h2h_count : Nat
  deriving Repr

/-- The qualification computation of `process_match` (lines 479–553,
589, 610, 621): count wins for both current sides, take the focus
side's rate (`away_team_focus` selects `cnt_away`), qualify iff the
rate is at least 0.60 and at least one H2H row exists.  The source sets
`out['qualifies'] = basic_qualifies` on every path. -/
def qualifyTeam (h2h : List H2HItem) (curHome curAway : String)
    (awayFocus : Bool) : TeamVerdict :=
  let ch := cntWins curHome h2h
  let ca := cntWins curAway h2h
  let n := h2h.length
  let focusWins := if awayFocus then ca else ch
  let wr : ℚ := if 0 < n then (focusWins : ℚ) / (n : ℚ) else 0
  { qualifies := decide ((3 : ℚ)/5 ≤ wr) && decide (1 ≤ n)
    win_rate := wr
    home_wins := ch
    away_wins := ca
    h2h_count := n }

/-- A decided historical meeting Alpha 2:1 Beta (home side won). -/
def alphaWin : H2HItem := { home := "Alpha", away := "Beta", score := some (2, 1), winner := "home" }

/-- A decided historical meeting Alpha 0:1 Beta (away side won). -/
def betaWin : H2HItem := { home := "Alpha", away := "Beta", score := some (0, 1), winner := "away" }

/-- Five meetings, three won by Alpha and two by Beta. -/
def hist32 : List H2HItem := [alphaWin, alphaWin, alphaWin, betaWin, betaWin]

/-- Five meetings, two won by Alpha and three by Beta. -/
def hist23 : List H2HItem := [alphaWin, alphaWin, betaWin, betaWin, betaWin]

/-- The one-row history of the double-counting scenario: the away side
"Real Madrid B" won 0:1, and "Real Madrid" is a substring of the
winner's name. -/
def rmHist : List H2HItem :=
  [{ home := "Real Madrid", away := "Real Madrid B", score := some (0, 1), winner := "away" }]

/-- Each row credits at most one win to a given side. -/
lemma credit_le_one (cur : String) (it : H2HItem) : credit cur it ≤ 1 := by
  unfold credit
  cases winnerName it with
  | none => exact Nat.zero_le 1
  | some w =>
    dsimp only
    split
    · exact le_refl 1
    · exact Nat.zero_le 1

/-- The win count for a side never exceeds the number of H2H rows. -/
lemma cntWins_le_length (cur : String) :
    ∀ h2h : List H2HItem, cntWins cur h2h ≤ h2h.length
  | [] => Nat.le_refl 0
  | it :: rest => by
      have h1 := credit_le_one cur it
      have h2 := cntWins_le_length cur rest
      simp only [cntWins, List.map_cons, List.sum_cons, List.length_cons] at *
      omega

/-- The focus side's win rate always lies in `[0, 1]`. -/
lemma win_rate_mem (h2h : List H2HItem) (curHome curAway : String)
    (awayFocus : Bool) :
    0 ≤ (qualifyTeam h2h curHome curAway awayFocus).win_rate ∧
      (qualifyTeam h2h curHome curAway awayFocus).win_rate ≤ 1 := by
  unfold qualifyTeam
  dsimp only
  set w : Nat := if awayFocus then cntWins curAway h2h else cntWins curHome h2h with hw
  have hwle : w ≤ h2h.length := by
    rw [hw]; split
    · exact cntWins_le_length curAway h2h
    · exact cntWins_le_length curHome h2h
  by_cases hn : 0 < h2h.length
  · rw [if_pos hn]
    constructor
    · exact div_nonneg (Nat.cast_nonneg w) (Nat.cast_nonneg h2h.length)
    · rw [div_le_one (by exact_mod_cast hn)]
      exact_mod_cast hwle
  · rw [if_neg hn]
    norm_num

lemma cntWins_alpha_hist32 : cntWins "Alpha" hist32 = 3 := by decide

lemma cntWins_beta_hist32 : cntWins "Beta" hist32 = 2 := by decide

lemma cntWins_alpha_hist23 : cntWins "Alpha" hist23 = 2 := by decide

lemma cntWins_beta_hist23 : cntWins "Beta" hist23 = 3 := by decide

/-- C1: team-sport qualification is exactly the threshold rule: for
every history list and both focus modes, the verdict qualifies iff
`win_rate ≥ 0.60` and `h2h_count ≥ 1`; concretely, 3 focus-side wins
out of 5 parsed matches (rate 0.60) qualify and 2 out of 5 (rate 0.40)
do not, in home-focus and away-focus mode alike. -/
theorem c1_team_threshold_rule :
    (∀ (h2h : List H2HItem) (curHome curAway : String) (awayFocus : Bool),
      (qualifyTeam h2h curHome curAway awayFocus).qualifies = true ↔
        3/5 ≤ (qualifyTeam h2h curHome curAway awayFocus).win_rate ∧
          1 ≤ (qualifyTeam h2h curHome curAway awayFocus).h2h_count)
    ∧ (qualifyTeam hist32 "Alpha" "Beta" false).win_rate = 3/5
    ∧ (qualifyTeam hist32 "Alpha" "Beta" false).qualifies = true
    ∧ (qualifyTeam hist23 "Alpha" "Beta" false).win_rate = 2/5
    ∧ (qualifyTeam hist23 "Alpha" "Beta" false).qualifies = false
    ∧ (qualifyTeam hist23 "Alpha" "Beta" true).win_rate = 3/5
    ∧ (qualifyTeam hist23 "Alpha" "Beta" true).qualifies = true
    ∧ (qualifyTeam hist32 "Alpha" "Beta" true).win_rate = 2/5
    ∧ (qualifyTeam hist32 "Alpha" "Beta" true).qualifies = false := by
  have hl32 : hist32.length = 5 := by decide
  have hl23 : hist23.length = 5 := by decide
  refine ⟨fun h2h curHome curAway awayFocus => ?_, ?_, ?_, ?_, ?_, ?_, ?_, ?_, ?_⟩
  · simp [qualifyTeam]
  all_goals
    simp only [qualifyTeam, cntWins_alpha_hist32, cntWins_beta_hist32,
      cntWins_alpha_hist23, cntWins_beta_hist23, hl32, hl23,
      Bool.and_eq_true, decide_eq_true_eq, Bool.and_eq_false_iff,
      decide_eq_false_iff_not]
  all_goals norm_num

/-- C2: the team verdict's `win_rate` is `0.0` on an empty parsed
history (with `qualifies = false`, as a normal result), each side's win
count never exceeds `h2h_count` despite the substring matching, and
`win_rate` always lies in `[0, 1]`. -/
theorem c2_win_rate_bounds :
    ∀ (h2h : List H2HItem) (curHome curAway : String) (awayFocus : Bool),
      ((qualifyTeam [] curHome curAway awayFocus).win_rate = 0
        ∧ (qualifyTeam [] curHome curAway awayFocus).qualifies = false)
      ∧ (qualifyTeam h2h curHome curAway awayFocus).home_wins ≤
          (qualifyTeam h2h curHome curAway awayFocus).h2h_count
      ∧ (qualifyTeam h2h curHome curAway awayFocus).away_wins ≤
          (qualifyTeam h2h curHome curAway awayFocus).h2h_count
      ∧ 0 ≤ (qualifyTeam h2h curHome curAway awayFocus).win_rate
      ∧ (qualifyTeam h2h curHome curAway awayFocus).win_rate ≤ 1 := by
  intro h2h curHome curAway awayFocus
  refine ⟨⟨?_, ?_⟩, ?_, ?_, (win_rate_mem h2h curHome curAway awayFocus).1,
    (win_rate_mem h2h curHome curAway awayFocus).2⟩
  · simp [qualifyTeam]
  · simp [qualifyTeam, cntWins]
  · exact cntWins_le_length curHome h2h
  · exact cntWins_le_length curAway h2h

/-- C8: with current sides "Real Madrid" and "Real Madrid B", a single
decided historical match won by "Real Madrid B" is credited to *both*
sides — `home_wins` and `away_wins` both become 1 on a one-row history —
and the double counting is preserved in the verdict (win rate 1.0 for
either focus mode), not corrected. -/
theorem c8_double_count :
    (qualifyTeam rmHist "Real Madrid" "Real Madrid B" false).home_wins = 1
    ∧ (qualifyTeam rmHist "Real Madrid" "Real Madrid B" false).away_wins = 1
    ∧ (qualifyTeam rmHist "Real Madrid" "Real Madrid B" false).h2h_count = 1
    ∧ (qualifyTeam rmHist "Real Madrid" "Real Madrid B" false).win_rate = 1
    ∧ (qualifyTeam rmHist "Real Madrid" "Real Madrid B" true).win_rate = 1 := by
  have hh : cntWins "Real Madrid" rmHist = 1 := by decide
  have ha : cntWins "Real Madrid B" rmHist = 1 := by decide
  have hl : rmHist.length = 1 := by decide
  refine ⟨?_, ?_, ?_, ?_, ?_⟩
  all_goals simp only [qualifyTeam, hh, ha, hl]
  all_goals norm_num

/-! ## Form / advantage analyzer
(`_analyze_form_advantage`, lines 936–981, and
`_analyze_away_form_advantage`, lines 984–1029) -/

/-- `form_points`: 3 points per `'W'`, 1 per `'D'`, 0 otherwise,
accumulated over the form list. -/
def form_points : List Char → Nat
  | [] => 0
  | c :: rest =>
    (if c = 'W' then 3 else if c = 'D' then 1 else 0) + form_points rest

/-- The four form lists consumed by the advantage analyzers
(`form_data['home_form_overall']` etc.). -/
structure FormData where
  home_form_overall : List Char
  home_form_home : List Char
  away_form_overall : List Char
  away_form_away : List Char
  deriving Repr, DecidableEq

/-- `_analyze_form_advantage`: home advantage iff home is in good
overall form (≥ 7 pts) while away is poor (≤ 6 pts), or home beats away
both overall and home-venue vs away-venue. -/
def analyzeFormAdvantage (fd : FormData) : Bool :=
  let home_overall_pts := form_points fd.home_form_overall
  let away_overall_pts := form_points fd.away_form_overall
  let home_home_pts := form_points fd.home_form_home
  let away_away_pts := form_points fd.away_form_away
  let home_good_form := decide (7 ≤ home_overall_pts)
  let away_poor_form := decide (away_overall_pts ≤ 6)
  let home_better := decide (away_overall_pts < home_overall_pts) &&
    decide (away_away_pts < home_home_pts)
  (home_good_form && away_poor_form) || home_better

/-- `_analyze_away_form_advantage`: the mirror rule with home/away
roles swapped. -/
def analyzeAwayFormAdvantage (fd : FormData) : Bool :=
  let home_overall_pts := form_points fd.home_form_overall
  let away_overall_pts := form_points fd.away_form_overall
  let home_home_pts := form_points fd.home_form_home
  let away_away_pts := form_points fd.away_form_away
  let away_good_form := decide (7 ≤ away_overall_pts)
  let home_poor_form := decide (home_overall_pts ≤ 6)
  let away_better := decide (home_overall_pts < away_overall_pts) &&
    decide (home_home_pts < away_away_pts)
  (away_good_form && home_poor_form) || away_better

/-- C3: form points are exactly `3·#W + 1·#D` (`L` contributes 0), the
home form-advantage predicate holds iff
`(home_overall ≥ 7 ∧ away_overall ≤ 6) ∨
 (home_overall > away_overall ∧ home_home > away_away)`,
and the away predicate is the mirror rule with roles and thresholds
swapped. -/
theorem c3_form_points_and_advantage :
    (∀ l : List Char, form_points l = 3 * l.count 'W' + l.count 'D')
    ∧ (∀ fd : FormData, analyzeFormAdvantage fd = true ↔
        ((7 ≤ form_points fd.home_form_overall ∧
            form_points fd.away_form_overall ≤ 6) ∨
          (form_points fd.away_form_overall < form_points fd.home_form_overall ∧
            form_points fd.away_form_away < form_points fd.home_form_home)))
    ∧ (∀ fd : FormData, analyzeAwayFormAdvantage fd = true ↔
        ((7 ≤ form_points fd.away_form_overall ∧
            form_points fd.home_form_overall ≤ 6) ∨
          (form_points fd.home_form_overall < form_points fd.away_form_overall ∧
            form_points fd.home_form_home < form_points fd.away_form_away))) := by
  refine ⟨?_, ?_, ?_⟩
  · intro l
    induction l with
    | nil => rfl
    | cons c rest ih =>
      by_cases hW : c = 'W'
      · simp [form_points, ih, hW, List.count_cons]
        ring
      · by_cases hD : c = 'D'
        · simp [form_points, ih, hW, hD, List.count_cons]
          ring
        · simp [form_points, ih, hW, hD, List.count_cons]
  · intro fd
    simp [analyzeFormAdvantage]
  · intro fd
    simp [analyzeAwayFormAdvantage]

/-! ## Surface profile generator
(`calculate_surface_stats_from_h2h`, lines 1695–1792) -/

/-- The per-surface synthetic profile `{'clay': .., 'grass': .., 'hard': ..}`. -/
structure SurfaceStats where
  clay : ℚ
  grass : ℚ
  hard : ℚ
  deriving Repr, DecidableEq

/-- `name_hash = sum(ord(c) for c in player_name)`. -/
def nameHash (player : String) : Nat := (player.data.map Char.toNat).sum

/-- The `(wins, total)` accumulation of the base-rate loop: a row counts
toward `total` when the player's normalized name and the row's
normalized home (checked first) or away name contain one another, and
toward `wins` when additionally the row's `winner` marker names that
side. -/
def surfBaseCounts (pn : List Char) : List H2HItem → Nat × Nat
  | [] => (0, 0)
  | m :: rest =>
    let acc := surfBaseCounts pn rest
    let home := pyNorm m.home.data
    let away := pyNorm m.away.data
    if containsSub home pn || containsSub pn home then
      (acc.1 + (if m.winner == "home" then 1 else 0), acc.2 + 1)
    else if containsSub away pn || containsSub pn away then
      (acc.1 + (if m.winner == "away" then 1 else 0), acc.2 + 1)
    else acc

/-- Step 2 of the generator, as the source executes it: the tier chain
sits under `if player_ranking:`, so a ranking of `None` — or of `0`,
which is falsy in Python — leaves the base rate unmodified (and
uncapped). -/
def rankAdjust (ranking : Option Nat) (base : ℚ) : ℚ :=
  match ranking with
  | none => base
  | some rk =>
    if rk = 0 then base
    else if rk ≤ 10 then min (base + 15/100) (95/100)
    else if rk ≤ 30 then min (base + 10/100) (90/100)
    else if rk ≤ 50 then min (base + 5/100) (85/100)
    else if rk ≤ 100 then min base (75/100)
    else max (base - 5/100) (45/100)

/-- Step 2 as the specification words it: whenever a ranking is
present, the tier of the rank (`≤10`, `≤30`, `≤50`, `≤100`, `>100`)
decides the adjustment — with no special case for rank 0. -/
def rankAdjustSpec (ranking : Option Nat) (base : ℚ) : ℚ :=
  match ranking with
  | none => base
  | some rk =>
    if rk ≤ 10 then min (base + 15/100) (95/100)
    else if rk ≤ 30 then min (base + 10/100) (90/100)
    else if rk ≤ 50 then min (base + 5/100) (85/100)
    else if rk ≤ 100 then min base (75/100)
    else max (base - 5/100) (45/100)

/-- Steps 3–4 of the generator: the surface at index `name_hash mod 3`
over `[clay, grass, hard]` gets `+0.08` capped at `0.98`, the other two
get `-0.04` floored at `0.30`; then the micro-variation
`(name_hash mod 7 - 3)/100` is added to all three and each value is
clamped to `[0.30, 0.98]`. -/
def surfaceFinish (player : String) (base : ℚ) : SurfaceStats :=
  let h := nameHash player
  let i := h % 3
  let sp := fun j : Nat =>
    if j = i then min (base + 8/100) (98/100) else max (base - 4/100) (3/10)
  let mv : ℚ := (((h % 7 : Nat) : ℚ) - 3) / 100
  let clampQ := fun v : ℚ => max (3/10) (min (98/100) (v + mv))
  { clay := clampQ (sp 0), grass := clampQ (sp 1), hard := clampQ (sp 2) }

/-- `calculate_surface_stats_from_h2h`: `None` for an empty player
name; otherwise H2H base rate (default 0.60 when no row involves the
player), ranking adjustment, specialization and micro-variation.  The
`current_surface` argument is accepted and never read, as in the
source. -/
def calculate_surface_stats_from_h2h (h2h : List H2HItem) (player : String)
    (currentSurface : Option String) (ranking : Option Nat) :
    Option SurfaceStats :=
  if player.data.isEmpty then none
  else
    let pn := pyNorm player.data
    let counts := surfBaseCounts pn h2h
    let base0 : ℚ := if 0 < counts.2 then (counts.1 : ℚ) / (counts.2 : ℚ) else 60/100
    some (surfaceFinish player (rankAdjust ranking base0))

/-- The generator as the specification describes it: identical to
`calculate_surface_stats_from_h2h` except that the ranking tier
adjustment applies to every present ranking, including 0. -/
def surfaceStatsSpec (h2h : List H2HItem) (player : String)
    (currentSurface : Option String) (ranking : Option Nat) :
    Option SurfaceStats :=
  if player.data.isEmpty then none
  else
    let pn := pyNorm player.data
    let counts := surfBaseCounts pn h2h
    let base0 : ℚ := if 0 < counts.2 then (counts.1 : ℚ) / (counts.2 : ℚ) else 60/100
    some (surfaceFinish player (rankAdjustSpec ranking base0))

/-- The constant mapping returned by the generator's `except` fallback. -/
def fallbackSurfaceStats : SurfaceStats :=
  { clay := 62/100, grass := 68/100, hard := 65/100 }

lemma nameHash_a : nameHash "a" = 97 := by decide

/-- Evaluation of the source generator at player `"a"`, no H2H rows,
ranking 0: the falsy rank skips the tier adjustment, leaving base 0.60
(hash 97: grass boosted, micro-variation +0.03). -/
lemma surface_src_a_rank0 :
    calculate_surface_stats_from_h2h [] "a" none (some 0) =
      some ⟨59/100, 71/100, 59/100⟩ := by
  have hne : "a".data.isEmpty = false := rfl
  simp only [calculate_surface_stats_from_h2h, surfBaseCounts, rankAdjust,
    surfaceFinish, nameHash_a, hne]
  norm_num [min_def, max_def]

/-- Evaluation of the spec-worded generator at the same input: rank 0
falls in the `≤ 10` tier and lifts the base to 0.75. -/
lemma surface_spec_a_rank0 :
    surfaceStatsSpec [] "a" none (some 0) =
      some ⟨74/100, 86/100, 74/100⟩ := by
  have hne : "a".data.isEmpty = false := rfl
  simp only [surfaceStatsSpec, surfBaseCounts, rankAdjustSpec,
    surfaceFinish, nameHash_a, hne]
  norm_num [min_def, max_def]

/-- C4 counterexample: the claimed tier arithmetic disagrees with the
source at a present ranking of 0 — the code's `if player_ranking:`
treats 0 as falsy and skips the `≤ 10` tier's `+0.15`. -/
theorem c4_counterexample :
    calculate_surface_stats_from_h2h [] "a" none (some 0) ≠
      surfaceStatsSpec [] "a" none (some 0) := by
  rw [surface_src_a_rank0, surface_spec_a_rank0]
  intro h
  simp only [Option.some.injEq, SurfaceStats.mk.injEq] at h
  norm_num at h

/-- C4 (amended): for every input whose ranking is absent or at least
1, the surface profile is computed by exactly the claimed arithmetic,
in the claimed order: H2H base rate (default 0.60), ranking tier
adjustment, specialization of surface `hash mod 3` (+0.08 cap 0.98,
others −0.04 floor 0.30), then micro-variation `(hash mod 7 − 3)/100`
clamped to `[0.30, 0.98]`. -/
theorem c4_surface_arithmetic (h2h : List H2HItem) (player : String)
    (cs : Option String) (ranking : Option Nat)
    (hr : ∀ k, ranking = some k → 1 ≤ k) :
    calculate_surface_stats_from_h2h h2h player cs ranking =
      surfaceStatsSpec h2h player cs ranking := by
  have hadj : ∀ b : ℚ, rankAdjust ranking b = rankAdjustSpec ranking b := by
    intro b
    cases ranking with
    | none => rfl
    | some k =>
      have hk : ¬ k = 0 := by
        have := hr k rfl
        omega
      simp only [rankAdjust, rankAdjustSpec, if_neg hk]
  simp only [calculate_surface_stats_from_h2h, surfaceStatsSpec, hadj]

/-- Witness for C4: at ranking 5 the hypothesis holds and source and
spec arithmetic agree. -/
theorem c4_surface_arithmetic_witness :
    (∀ k : Nat, (some 5 : Option Nat) = some k → 1 ≤ k)
    ∧ calculate_surface_stats_from_h2h [] "a" none (some 5) =
        surfaceStatsSpec [] "a" none (some 5) := by
  have h5 : ∀ k : Nat, (some 5 : Option Nat) = some k → 1 ≤ k := by
    intro k hk
    injection hk with hk
    omega
  exact ⟨h5, c4_surface_arithmetic [] "a" none (some 5) h5⟩

/-- Every field produced by the specialization-and-clamp step lies in
`[0.30, 0.98]`. -/
lemma surfaceFinish_mem (player : String) (base : ℚ) :
    (3/10 ≤ (surfaceFinish player base).clay ∧ (surfaceFinish player base).clay ≤ 98/100)
    ∧ (3/10 ≤ (surfaceFinish player base).grass ∧ (surfaceFinish player base).grass ≤ 98/100)
    ∧ (3/10 ≤ (surfaceFinish player base).hard ∧ (surfaceFinish player base).hard ≤ 98/100) := by
  unfold surfaceFinish
  dsimp only
  refine ⟨⟨?_, ?_⟩, ⟨?_, ?_⟩, ⟨?_, ?_⟩⟩
  all_goals
    first
      | exact le_max_left _ _
      | exact max_le (by norm_num) (min_le_left _ _)

/-- C5: whenever the surface-profile generator returns a mapping, all
three surface values lie in `[0.30, 0.98]`; the values of its internal
exception fallback lie in the same interval. -/
theorem c5_surface_bounds :
    (∀ (h2h : List H2HItem) (player : String) (cs : Option String)
        (ranking : Option Nat) (s : SurfaceStats),
      calculate_surface_stats_from_h2h h2h player cs ranking = some s →
        (3/10 ≤ s.clay ∧ s.clay ≤ 98/100)
        ∧ (3/10 ≤ s.grass ∧ s.grass ≤ 98/100)
        ∧ (3/10 ≤ s.hard ∧ s.hard ≤ 98/100))
    ∧ ((3/10 ≤ fallbackSurfaceStats.clay ∧ fallbackSurfaceStats.clay ≤ 98/100)
        ∧ (3/10 ≤ fallbackSurfaceStats.grass ∧ fallbackSurfaceStats.grass ≤ 98/100)
        ∧ (3/10 ≤ fallbackSurfaceStats.hard ∧ fallbackSurfaceStats.hard ≤ 98/100)) := by
  constructor
  · intro h2h player cs ranking s hs
    by_cases hp : player.data.isEmpty
    · simp [calculate_surface_stats_from_h2h, hp] at hs
    · simp only [calculate_surface_stats_from_h2h, hp, Bool.false_eq_true,
        if_false, Option.some.injEq] at hs
      rw [← hs]
      exact surfaceFinish_mem player _
  · refine ⟨⟨?_, ?_⟩, ⟨?_, ?_⟩, ⟨?_, ?_⟩⟩
    all_goals norm_num [fallbackSurfaceStats]

/-- Witness for C5: the generator's output at player `"a"`, no rows,
ranking 0 is in range. -/
theorem c5_surface_bounds_witness :
    calculate_surface_stats_from_h2h [] "a" none (some 0) =
      some ⟨59/100, 71/100, 59/100⟩
    ∧ (((3:ℚ)/10 ≤ 59/100 ∧ (59:ℚ)/100 ≤ 98/100)
        ∧ ((3:ℚ)/10 ≤ 71/100 ∧ (71:ℚ)/100 ≤ 98/100)
        ∧ ((3:ℚ)/10 ≤ 59/100 ∧ (59:ℚ)/100 ≤ 98/100)) :=
  ⟨surface_src_a_rank0,
    c5_surface_bounds.1 [] "a" none (some 0) ⟨59/100, 71/100, 59/100⟩
      surface_src_a_rank0⟩

/-! ## Tennis multi-factor scorer (`process_match_tennis`)

The H2H counting loop (lines 1921–1960), the favorite override
(lines 2104–2116) and the fallback on collaborator failure
(lines 2123–2141).  The V3 analyzer is an external collaborator; its
result — signed total score, qualification flag and favorite label — is
modelled as an abstract input, `none` standing for any failure
(exception or missing data) of the `try` block. -/

/-- Contribution of one H2H row to `(player_a_wins, player_b_wins)`:
the winner's normalized name is tested against player A first, and
against player B only in the `elif` — a row is credited to at most one
player.  A truthy player name is required on each branch; draws and
unparsable scores are skipped. -/
def tennisStep (pa pb : String) (it : H2HItem) : Nat × Nat :=
  match winnerName it with
  | none => (0, 0)
  | some w =>
    let wn := pyNorm w
    let an := pyNorm pa.data
    let bn := pyNorm pb.data
    if !pa.data.isEmpty && (wn == an || containsSub an wn || containsSub wn an) then
      (1, 0)
    else if !pb.data.isEmpty && (wn == bn || containsSub bn wn || containsSub wn bn) then
      (0, 1)
    else (0, 0)

/-- `player_a_wins` over the H2H list. -/
def tennisWinsA (pa pb : String) (h2h : List H2HItem) : Nat :=
  (h2h.map (fun it => (tennisStep pa pb it).1)).sum

/-- `player_b_wins` over the H2H list. -/
def tennisWinsB (pa pb : String) (h2h : List H2HItem) : Nat :=
  (h2h.map (fun it => (tennisStep pa pb it).2)).sum

/-- The result record of the V3 analyzer, as consumed by the source:
`analysis['total_score']` (signed), `analysis['qualifies']`, and
`analysis['details']['favorite']`. -/
structure TennisAnalysis where
  total_score : ℚ
  qualifies : Bool
  favorite : String
  deriving Repr, DecidableEq

/-- The tennis verdict fields written by the scoring block. -/
structure TennisVerdict where
  qualifies : Bool
  advanced_score : ℚ
  favorite : String
  deriving Repr, DecidableEq

/-- The favorite written by the success path: when the absolute score
is exactly 0 or the analyzer named `'even'`, the favorite is
re-derived from the raw H2H win counts; otherwise the analyzer's
favorite stands. -/
def tennisFavorite (totalScore : ℚ) (favKey : String) (aWins bWins : Nat) :
    String :=
  if |totalScore| = 0 ∨ favKey = "even" then
    if bWins < aWins then "player_a"
    else if aWins < bWins then "player_b"
    else "even"
  else favKey

/-- The scoring block of `process_match_tennis`: on a collaborator
result, absolute score, the analyzer's qualification flag and the
override favorite; on collaborator failure (`except` branch), the
fallback — qualifies iff player A has ≥ 1 H2H win and strictly more
than player B, score 0.0, favorite purely from raw win counts.  Both
branches return a verdict: no failure reaches the caller. -/
def tennisFinalize (analysis : Option TennisAnalysis) (aWins bWins : Nat) :
    TennisVerdict :=
  match analysis with
  | some an =>
    { qualifies := an.qualifies
      advanced_score := |an.total_score|
      favorite := tennisFavorite an.total_score an.favorite aWins bWins }
  | none =>
    { qualifies := decide (1 ≤ aWins) && decide (bWins < aWins)
      advanced_score := 0
      favorite :=
        if bWins < aWins then "player_a"
        else if aWins < bWins then "player_b"
        else "even" }

/-- C6: whenever the collaborator's absolute score is exactly 0 or its
favorite is `'even'`, the emitted favorite is the raw-H2H comparison —
`player_a` on strictly more A wins, `player_b` on strictly more B wins,
`'even'` only on a tie. -/
theorem c6_favorite_override (an : TennisAnalysis) (aWins bWins : Nat)
    (h : |an.total_score| = 0 ∨ an.favorite = "even") :
    (tennisFinalize (some an) aWins bWins).favorite =
      (if bWins < aWins then "player_a"
        else if aWins < bWins then "player_b"
        else "even") := by
  simp only [tennisFinalize, tennisFavorite, if_pos h]

/-- Witness for C6: a raw score of 0 with H2H wins 3 to 1 resolves the
favorite to `player_a`, not `'even'`. -/
theorem c6_favorite_override_witness :
    (|(0 : ℚ)| = 0 ∨ "player_b" = "even")
    ∧ (tennisFinalize (some ⟨0, true, "player_b"⟩) 3 1).favorite = "player_a" := by
  have h0 : |(0 : ℚ)| = 0 ∨ ("player_b" : String) = "even" := Or.inl abs_zero
  refine ⟨h0, ?_⟩
  rw [c6_favorite_override ⟨0, true, "player_b"⟩ 3 1 h0]
  norm_num

/-- C7: on collaborator failure the verdict degrades to the documented
fallback — qualifies iff player A has at least one H2H win and strictly
more wins than player B, the score is 0.0, and the favorite comes
purely from the raw win counts with ties resolving to `'even'`; a
verdict is always produced, so the failure is not propagated. -/
theorem c7_tennis_fallback :
    ∀ aWins bWins : Nat,
      ((tennisFinalize none aWins bWins).qualifies = true ↔
        (1 ≤ aWins ∧ bWins < aWins))
      ∧ (tennisFinalize none aWins bWins).advanced_score = 0
      ∧ (tennisFinalize none aWins bWins).favorite =
          (if bWins < aWins then "player_a"
            else if aWins < bWins then "player_b"
            else "even") := by
  intro aWins bWins
  refine ⟨?_, rfl, rfl⟩
  simp [tennisFinalize]

/-- C10: the tennis counting credits each decided row to at most one
player — `player_a_wins + player_b_wins` never exceeds the number of
H2H rows — and the player-A check takes precedence: a winner name that
substring-matches both players increments only `player_a_wins`. -/
theorem c10_tennis_no_double_count :
    (∀ (pa pb : String) (h2h : List H2HItem),
      tennisWinsA pa pb h2h + tennisWinsB pa pb h2h ≤ h2h.length)
    ∧ tennisWinsA "Nadal" "Nadal Jr"
        [{ home := "Nadal Jr", away := "Garcia", score := some (2, 0), winner := "home" }] = 1
    ∧ tennisWinsB "Nadal" "Nadal Jr"
        [{ home := "Nadal Jr", away := "Garcia", score := some (2, 0), winner := "home" }] = 0 := by
  refine ⟨?_, by decide, by decide⟩
  intro pa pb h2h
  induction h2h with
  | nil => simp [tennisWinsA, tennisWinsB]
  | cons it rest ih =>
    have hstep : (tennisStep pa pb it).1 + (tennisStep pa pb it).2 ≤ 1 := by
      unfold tennisStep
      cases winnerName it with
      | none => simp
      | some w =>
        dsimp only
        split
        · simp
        · split <;> simp
    simp only [tennisWinsA, tennisWinsB, List.map_cons, List.sum_cons,
      List.length_cons] at *
    omega

/-! ## Over/under gating (`process_match` lines 694–715,
`process_match_tennis` lines 2004–2013)

The analyzer `over_under_analyzer.analyze_over_under` is an external
collaborator; we model the call site: under which condition it is
invoked, and which line it receives. -/

/-- The `default_lines` table, with the dictionary's `.get(sport, 2.5)`
default for unknown sports. -/
def default_lines (sport : String) : ℚ :=
  if sport == "football" then 5/2
  else if sport == "basketball" then 441/2
  else if sport == "handball" then 111/2
  else if sport == "volleyball" then 9/2
  else if sport == "hockey" then 11/2
  else if sport == "tennis" then 5/2
  else 5/2

/-- `line_to_use = api_line if api_line else default_lines.get(sport, 2.5)`:
the API line when it is present and truthy (a 0.0 line is falsy in
Python), otherwise the sport's default. -/
def lineToUse (apiLine : Option ℚ) (sport : String) : ℚ :=
  match apiLine with
  | some l => if l = 0 then default_lines sport else l
  | none => default_lines sport

/-- The guard and argument of the team-sport analyzer call: the line
passed to the collaborator when it is invoked (`len(h2h) >= 5`), `none`
when it is not. -/
def ouAnalysisLine (h2hCount : Nat) (apiLine : Option ℚ) (sport : String) :
    Option ℚ :=
  if 5 ≤ h2hCount then some (lineToUse apiLine sport) else none

/-- The O/U fields of the team verdict, initialized to non-qualifying
defaults before the analyzer block. -/
structure OUFields where
  ou_qualifies : Bool
  ou_recommendation : Option String
  ou_line : Option ℚ
  ou_line_type : Option String
  ou_h2h_percentage : ℚ
  deriving Repr, DecidableEq

/-- The defaults set just before the O/U block. -/
def ouDefaults : OUFields :=
  { ou_qualifies := false, ou_recommendation := none, ou_line := none
    ou_line_type := none, ou_h2h_percentage := 0 }

/-- The collaborator's result, as read by `process_match` (`none`
models an exception or a falsy result). -/
structure OUAnalysis where
  qualifies : Bool
  recommendation : Option String
  line : ℚ
  line_type : String
  h2h_over_percentage : ℚ
  deriving Repr, DecidableEq

/-- The O/U block of `process_match`: invoke the analyzer only through
`ouAnalysisLine`; overwrite the default fields only when the analyzer
returned a qualifying result. -/
def processOU (h2hCount : Nat) (apiLine : Option ℚ) (sport : String)
    (analyzer : ℚ → Option OUAnalysis) : OUFields :=
  match ouAnalysisLine h2hCount apiLine sport with
  | none => ouDefaults
  | some line =>
    match analyzer line with
    | none => ouDefaults
    | some a =>
      if a.qualifies then
        { ou_qualifies := true, ou_recommendation := a.recommendation
          ou_line := some a.line, ou_line_type := some a.line_type
          ou_h2h_percentage := a.h2h_over_percentage }
      else ouDefaults

/-- The guard of the tennis O/U block (`if len(h2h) >= 5:`), which
invokes the analyzer with no explicit line. -/
def tennisOUInvoked (h2hCount : Nat) : Bool := decide (5 ≤ h2hCount)

/-- C9: the over/under analyzer is invoked only when at least 5 H2H
records exist (in the team path and the tennis path alike); with no API
line the invocation receives the sport's default — football 2.5,
basketball 220.5, handball 55.5, volleyball 4.5, hockey 5.5, tennis
2.5; with fewer than 5 records the verdict's O/U fields keep their
non-qualifying defaults. -/
theorem c9_ou_gating :
    (∀ (n : Nat) (apiLine : Option ℚ) (sport : String)
        (analyzer : ℚ → Option OUAnalysis),
      n < 5 →
        ouAnalysisLine n apiLine sport = none
        ∧ processOU n apiLine sport analyzer = ouDefaults
        ∧ tennisOUInvoked n = false)
    ∧ (∀ (n : Nat) (sport : String),
        5 ≤ n →
          ouAnalysisLine n none sport = some (default_lines sport)
          ∧ tennisOUInvoked n = true)
    ∧ default_lines "football" = 5/2
    ∧ default_lines "basketball" = 441/2
    ∧ default_lines "handball" = 111/2
    ∧ default_lines "volleyball" = 9/2
    ∧ default_lines "hockey" = 11/2
    ∧ default_lines "tennis" = 5/2 := by
  refine ⟨?_, ?_, rfl, rfl, rfl, rfl, rfl, rfl⟩
  · intro n apiLine sport analyzer hn
    have hng : ¬ 5 ≤ n := by omega
    refine ⟨?_, ?_, ?_⟩
    · simp [ouAnalysisLine, hng]
    · simp [processOU, ouAnalysisLine, hng]
    · simp [tennisOUInvoked, hng]
  · intro n sport hn
    constructor
    · simp [ouAnalysisLine, hn, lineToUse]
    · simp [tennisOUInvoked, hn]

/-- Witness for C9: at 4 records nothing is invoked and the fields stay
at their defaults; at 5 records with no API line the football default
2.5 is passed. -/
theorem c9_ou_gating_witness :
    ((4 : Nat) < 5
      ∧ ouAnalysisLine 4 none "football" = none
      ∧ processOU 4 none "football" (fun _ => none) = ouDefaults
      ∧ tennisOUInvoked 4 = false)
    ∧ ((5 : Nat) ≤ 5
        ∧ ouAnalysisLine 5 none "football" = some (default_lines "football")
        ∧ tennisOUInvoked 5 = true) := by
  have h4 : (4 : Nat) < 5 := by omega
  have h5 : (5 : Nat) ≤ 5 := le_refl 5
  have ha := c9_ou_gating.1 4 none "football" (fun _ => none) h4
  have hb := c9_ou_gating.2.1 5 "football" h5
  exact ⟨⟨h4, ha.1, ha.2.1, ha.2.2⟩, ⟨h5, hb.1, hb.2⟩⟩

end Livesport
